import Mathlib

/-!
Verification of `computation_building_blocks.py` — the computation-IR node
hierarchy (Reference, Selection, Tuple, Call, Lambda, Block, Intrinsic, Data,
CompiledComputation) with its construction-time type derivation and validation.

The embedding follows the source file closely.  The external type-system
capability (`types.to_type`, `types.NamedTupleType`, `types.FunctionType`,
assignability), the `anonymous_tuple` container, `type_utils` and
`type_serialization` are not part of the source under verification; where a
definition stands in for one of them it is marked `Modelled from the spec:`
and follows the specification's description of that collaborator.
-/

namespace CompBB

/-- The structural type values of the external type system, as the IR needs
them: function types carry an optional parameter type (`types.FunctionType`
allows a null parameter, as `Call.__init__` relies on) and a result type;
named-tuple types carry an ordered list of (optional name, type) fields
(`types.NamedTupleType`); every other type (tensor types, abstract types, …)
is opaque to this module and represented by a tag. -/
inductive TffType where
  | abstract (tag : String) : TffType
  | function (parameter : Option TffType) (result : TffType) : TffType
  | namedTuple (elements : List (Option String × TffType)) : TffType
deriving Repr

/-- The failure cases of node construction, one constructor per reachable
raise site of the source (failures of `py_typecheck.check_type` on the Python
runtime class of an argument are unrepresentable in a typed embedding and do
not appear). -/
inductive TffError where
  /-- `types.to_type` applied to a null type spec (external; see `toType`). -/
  | nullTypeSpec
  /-- Selection: "Must define either a name or index, and neither was
  specified." (`ValueError`). -/
  | selectionNeitherNameNorIndex
  /-- Selection: "Cannot simultaneously specify a name and an index"
  (`ValueError`). -/
  | selectionBothNameAndIndex
  /-- Selection: "Expected the source of selection to be a TFF named tuple"
  (`TypeError`). -/
  | selectionSourceNotNamedTupleType
  /-- Selection: "The name of the selected element cannot be empty."
  (`ValueError`). -/
  | selectionEmptyName
  /-- Selection: `type_utils.get_named_tuple_element_type` found no field of
  the requested name (external; see `getNamedTupleElementType`). -/
  | selectionFieldNotFound
  /-- Selection: "The index of the selected element ... does not fit into the
  valid range" (`ValueError`). -/
  | selectionIndexOutOfRange
  /-- Tuple: two elements share the same non-null name — the ordered-field
  container underlying both the named-tuple type and the node rejects
  duplicate non-null names (`ValueError`; see `Tuple.construct`). -/
  | tupleDuplicateName
  /-- Call: "Expected func to be of a functional type" (`TypeError`). -/
  | callFuncNotFunctionType
  /-- Call: "The invoked function expects an argument ... but got None
  instead." (`TypeError`). -/
  | callMissingArgument
  /-- Call: "The parameter of the invoked function is expected to be of type
  ... but the supplied argument is of an incompatible type" (`TypeError`). -/
  | callArgumentNotAssignable
  /-- Call: "The invoked function does not expect any parameters, but got an
  argument" (`TypeError`). -/
  | callUnexpectedArgument
  /-- Lambda: "A lambda expression must have a valid parameter type."
  (`TypeError`). -/
  | lambdaNullParameterType
  /-- Intrinsic: "Intrinsic ... cannot be created without a TFF type."
  (`TypeError`). -/
  | intrinsicNullType
  /-- Data: the corresponding null-type check in `Data.__init__`
  (`TypeError`). -/
  | dataNullType
deriving Repr, DecidableEq

/-- Modelled from the spec: the error taxonomy of section 7 —
`InvalidArgumentKind` (a "TypeError" class of failure: wrong runtime category,
null required type), `InvalidValueKind` (a "ValueError" class of failure:
structurally wrong value), and `IncompatibleTypeKind` (a child type signature
fails the compatibility rule of the enclosing node: selection field not
found, call argument not assignable). -/
inductive ErrorKind where
  | invalidArgument
  | invalidValue
  | incompatibleType
deriving Repr, DecidableEq

/-- Modelled from the spec: classification of each failure case under the
section-7 taxonomy.  `ValueError` sites are `invalidValue`; `TypeError` sites
are `invalidArgument`, except the compatibility failures (field not found,
argument not assignable), which the spec classifies as `incompatibleType`. -/
def TffError.kind : TffError → ErrorKind
  | .nullTypeSpec => .invalidArgument
  | .selectionNeitherNameNorIndex => .invalidValue
  | .selectionBothNameAndIndex => .invalidValue
  | .selectionSourceNotNamedTupleType => .invalidArgument
  | .selectionEmptyName => .invalidValue
  | .selectionFieldNotFound => .incompatibleType
  | .selectionIndexOutOfRange => .invalidValue
  | .tupleDuplicateName => .invalidValue
  | .callFuncNotFunctionType => .invalidArgument
  | .callMissingArgument => .invalidArgument
  | .callArgumentNotAssignable => .incompatibleType
  | .callUnexpectedArgument => .invalidArgument
  | .lambdaNullParameterType => .invalidArgument
  | .intrinsicNullType => .invalidArgument
  | .dataNullType => .invalidArgument

/-- The serialized-computation payload of `CompiledComputation`
(`pb.Computation`): it carries an embedded type descriptor (`proto.type`,
read back by `type_serialization.deserialize_type`) and, for the purposes of
the default-name checksum, the bytes of its canonical textual encoding
(`repr(proto)` in the source). -/
structure Proto where
  tyDescriptor : TffType
  reprBytes : List Nat
deriving Repr

/-- The nine node variants of `ComputationBuildingBlock`.  Each carries the
variant-specific fields stored by its `__init__` plus the `_type_signature`
stored by the base-class constructor.  Validity is not built into this raw
datatype; the `*.construct` functions below are the constructors of the
source, and return `Except TffError Node`. -/
inductive Node where
  | ref (name : String) (ty : TffType) (context : Option String) : Node
  | sel (source : Node) (name : Option String) (index : Option Int) (ty : TffType) : Node
  | tup (elements : List (Option String × Node)) (ty : TffType) : Node
  | call (func : Node) (argument : Option Node) (ty : TffType) : Node
  | lam (parameterName : String) (parameterType : TffType) (result : Node) (ty : TffType) : Node
  | block (localSymbols : List (String × Node)) (result : Node) (ty : TffType) : Node
  | intrinsic (uri : String) (ty : TffType) : Node
  | data (uri : String) (ty : TffType) : Node
  | compiled (proto : Proto) (name : String) (ty : TffType) : Node
deriving Repr

/-- The read-only `type_signature` property of `ComputationBuildingBlock`. -/
def Node.type_signature : Node → TffType
  | .ref _ t _ => t
  | .sel _ _ _ t => t
  | .tup _ t => t
  | .call _ _ t => t
  | .lam _ _ _ t => t
  | .block _ _ t => t
  | .intrinsic _ t => t
  | .data _ t => t
  | .compiled _ _ t => t

/-- Modelled from the spec: the external type capability's `types.to_type` —
"an explicit, pure, fallible conversion function from a permissive input
representation to the canonical type value" (spec section 9).  The inputs this
module hands it are already canonical type values or null, so conversion
succeeds exactly on non-null input; failing on null keeps the spec's
invariant that `type_signature` is always present (spec section 3). -/
def toType : Option TffType → Except TffError TffType
  | some t => .ok t
  | none => .error .nullTypeSpec

/-- Modelled from the spec: `type_utils.get_named_tuple_element_type` —
"resolved type = field lookup on source's named-tuple type (fails — via the
type capability — if the field does not exist)" (spec section 4.3).  Returns
the type of the first field carrying the given name. -/
def getNamedTupleElementType (elements : List (Option String × TffType))
    (name : String) : Except TffError TffType :=
  match elements.find? (fun e => e.1 == some name) with
  | some e => .ok e.2
  | none => .error .selectionFieldNotFound

/-- `Reference.__init__(name, type_spec, context)`: checks that `name` is
text (a typing fact here), stores `to_type(type_spec)` as the type signature,
and retains `name` and `context`.  Note: no emptiness check on `name`. -/
def Reference.construct (name : String) (type_spec : Option TffType)
    (context : Option String) : Except TffError Node :=
  match toType type_spec with
  | .ok t => .ok (.ref name t context)
  | .error e => .error e

/-- `Selection.__init__(source, name, index)`: rejects neither/both of
name and index, requires the source's type to be a named-tuple type, then
either resolves a non-empty name via field lookup or bound-checks the integer
index against the element list, deriving the selection's type accordingly.
Exactly one of name/index is retained; the other is stored as null. -/
def Selection.construct (source : Node) (name : Option String)
    (index : Option Int) : Except TffError Node :=
  match name, index with
  | none, none => .error .selectionNeitherNameNorIndex
  | some _, some _ => .error .selectionBothNameAndIndex
  | some n, none =>
    match source.type_signature with
    | .namedTuple elements =>
      if n = "" then .error .selectionEmptyName
      else
        match getNamedTupleElementType elements n with
        | .ok t => .ok (.sel source (some n) none t)
        | .error e => .error e
    | _ => .error .selectionSourceNotNamedTupleType
  | none, some i =>
    match source.type_signature with
    | .namedTuple elements =>
      if 0 ≤ i ∧ i < (elements.length : Int) then
        .ok (.sel source none (some i) (elements.getD i.toNat (none, .abstract "")).2)
      else .error .selectionIndexOutOfRange
    | _ => .error .selectionSourceNotNamedTupleType

/-- An input element of `Tuple.__init__`: either a bare node (unnamed) or a
`(name-or-null, node)` pair, as accepted by `_map_element`. -/
inductive TupleElem where
  | bare (value : Node) : TupleElem
  | pair (name : Option String) (value : Node) : TupleElem

/-- `Tuple.__init__._map_element`: a bare node becomes `(None, e)`, a
two-element pair with a null-or-string first component is kept as is. -/
def mapElement : TupleElem → Option String × Node
  | .bare v => (none, v)
  | .pair n v => (n, v)

/-- The name an element contributes to the derived named-tuple type: the
source builds `types.NamedTupleType` from `(e[0], type) if e[0] else type`,
so a name only survives into the type when it is truthy — a null name AND an
empty-string name both yield an unnamed type field. -/
def normalizeTupleName : Option String → Option String
  | some s => if s = "" then none else some s
  | none => none

/-- Whether some non-null name occurs twice in the list. -/
def hasDuplicateName : List (Option String) → Bool
  | [] => false
  | none :: rest => hasDuplicateName rest
  | some s :: rest => rest.contains (some s) || hasDuplicateName rest

/-- `Tuple.__init__(elements)`: maps each element through `_map_element`,
builds the named-tuple type from the children's type signatures (with the
truthiness name normalization of the source), and retains the mapped
elements.  Modelled from the spec: both `types.NamedTupleType` (built first,
line 213) and `anonymous_tuple.AnonymousTuple.__init__` (line 216) are
external constructions of the ordered-field container, which "fails with
`ValueError`-kind if two entries share a non-null name" (spec section 4.1);
the two duplicate checks below stand for those two constructions, in source
order. -/
def Tuple.construct (elements : List TupleElem) : Except TffError Node :=
  let mapped := elements.map mapElement
  let tyElements := mapped.map fun e => (normalizeTupleName e.1, e.2.type_signature)
  if hasDuplicateName (tyElements.map Prod.fst) then .error .tupleDuplicateName
  else if hasDuplicateName (mapped.map Prod.fst) then .error .tupleDuplicateName
  else .ok (.tup mapped (.namedTuple tyElements))

/-- `Call.__init__(func, arg)`: requires `func`'s type to be a function type;
if its parameter type is non-null the argument must be present and its type
assignable to the parameter type (assignability is the external capability
`parameter.is_assignable_from`, passed here as `assignable`); if the
parameter type is null the argument must be absent.  The call's type is the
function type's result type. -/
def Call.construct (assignable : TffType → TffType → Bool) (func : Node)
    (arg : Option Node) : Except TffError Node :=
  match func.type_signature with
  | .function parameter result =>
    match parameter with
    | some p =>
      match arg with
      | none => .error .callMissingArgument
      | some a =>
        if assignable p a.type_signature then .ok (.call func (some a) result)
        else .error .callArgumentNotAssignable
    | none =>
      match arg with
      | some _ => .error .callUnexpectedArgument
      | none => .ok (.call func none result)
  | _ => .error .callFuncNotFunctionType

/-- `Lambda.__init__(parameter_name, parameter_type, result)`: rejects a null
parameter type, normalizes it via `to_type`, and derives the type
`types.FunctionType(parameter_type, result.type_signature)`. -/
def Lambda.construct (parameterName : String) (parameterType : Option TffType)
    (result : Node) : Except TffError Node :=
  match parameterType with
  | none => .error .lambdaNullParameterType
  | some pt =>
    match toType (some pt) with
    | .ok t => .ok (.lam parameterName t result (.function (some t) result.type_signature))
    | .error e => .error e

/-- `Block.__init__(local_symbols, result)`: each local must be a 2-element
(text name, node) pair — shape facts carried by the Lean type of
`localSymbols` — and the block's type is the result's type, independent of
the locals. -/
def Block.construct (localSymbols : List (String × Node)) (result : Node) :
    Except TffError Node :=
  .ok (.block localSymbols result result.type_signature)

/-- `Intrinsic.__init__(uri, type_spec)`: rejects a null type spec, then
stores `to_type(type_spec)` as the type signature. -/
def Intrinsic.construct (uri : String) (type_spec : Option TffType) :
    Except TffError Node :=
  match type_spec with
  | none => .error .intrinsicNullType
  | some ts =>
    match toType (some ts) with
    | .ok t => .ok (.intrinsic uri t)
    | .error e => .error e

/-- `Data.__init__(uri, type_spec)`: rejects a null type spec, then stores
`to_type(type_spec)` as the type signature. -/
def Data.construct (uri : String) (type_spec : Option TffType) :
    Except TffError Node :=
  match type_spec with
  | none => .error .dataNullType
  | some ts =>
    match toType (some ts) with
    | .ok t => .ok (.data uri t)
    | .error e => .error e

/-- The Adler-32 checksum of `zlib` over a byte sequence (`zlib.adler32` in
the source), with the standard modulus 65521; the running pair starts at
`(a, b) = (1, 0)`. -/
def adler32Aux : List Nat → Nat → Nat → Nat
  | [], a, b => b * 65536 + a
  | x :: rest, a, b =>
    adler32Aux rest ((a + x) % 65521) ((b + (a + x) % 65521) % 65521)

/-- `zlib.adler32(bytes)` as a non-negative integer. -/
def adler32 (bytes : List Nat) : Nat := adler32Aux bytes 1 0

/-- The ten decimal digit characters, in value order. -/
def decimalDigitChars : List Char :=
  ['0', '1', '2', '3', '4'] ++ ['5', '6', '7', '8', '9']

/-- The sixteen lowercase hexadecimal digit characters, in value order. -/
def hexDigitChars : List Char :=
  decimalDigitChars ++ ['a', 'b', 'c', 'd', 'e', 'f']

/-- A single hexadecimal digit, lowercase. -/
def hexChar (n : Nat) : Char := hexDigitChars.getD n '0'

/-- Digit accumulation for `toHexLower`; the first argument is fuel, always
sufficient at `n + 1` since the value shrinks by a factor of 16 each step. -/
def toHexLowerAux : Nat → Nat → List Char → List Char
  | 0, _, acc => acc
  | fuel + 1, n, acc =>
    if n < 16 then hexChar n :: acc
    else toHexLowerAux fuel (n / 16) (hexChar (n % 16) :: acc)

/-- Python's `'{:x}'.format(n)` for a non-negative `n`: lowercase hexadecimal
without a prefix or leading zeros. -/
def toHexLower (n : Nat) : String := ⟨toHexLowerAux (n + 1) n []⟩

/-- The auto-generated default name of a `CompiledComputation`:
`'{:x}'.format(zlib.adler32(repr(proto)) & 0xFFFFFFFF)`. -/
def defaultCompiledName (proto : Proto) : String :=
  toHexLower (adler32 proto.reprBytes % 4294967296)

/-- Modelled from the spec: `type_serialization.deserialize_type(proto.type)`
— "the resolved type is obtained by deserializing the payload's embedded type
descriptor via the external capability" (spec section 4.10); modelled as
reading the descriptor embedded in the payload. -/
def deserializeType (proto : Proto) : TffType := proto.tyDescriptor

/-- `CompiledComputation.__init__(proto, name)`: the type is deserialized
from the payload's embedded descriptor; the name is the supplied one when
present, else the deterministic lowercase-hexadecimal checksum name. -/
def CompiledComputation.construct (proto : Proto) (name : Option String) :
    Except TffError Node :=
  .ok (.compiled proto
    (match name with
     | some s => s
     | none => defaultCompiledName proto)
    (deserializeType proto))

/-- Whether every character of `s` is a lowercase hexadecimal digit. -/
def isLowerHexString (s : String) : Bool :=
  s.data.all (fun c => hexDigitChars.contains c)

/-- The stored `_name` of a successfully constructed `CompiledComputation`,
read off a construction result. -/
def constructedCompiledName : Except TffError Node → Option String
  | .ok (.compiled _ n _) => some n
  | _ => none

mutual

/-- The human-readable expression string `__str__` of each variant:
`name` / `name@context` for Reference; `source.name` / `source[index]` for
Selection; the ordered-field container's canonical `<...>` form for Tuple
(the container's own `__str__` is external — modelled from the spec:
"`<name=val, val, ...>` with unnamed elements rendered bare", section 4.1);
`func(arg)` / `func()` for Call; `(name -> result)` for Lambda;
`(let n1=v1,n2=v2,... in result)` for Block; the URI for Intrinsic and Data;
`comp(name)` for CompiledComputation. -/
def Node.render : Node → String
  | .ref name _ context =>
    match context with
    | some c => name ++ "@" ++ c
    | none => name
  | .sel source name index _ =>
    match name with
    | some n => source.render ++ "." ++ n
    | none =>
      source.render ++ "[" ++
        (match index with
         | some i => toString i
         | none => "None") ++ "]"
  | .tup elements _ => "<" ++ renderElements elements ++ ">"
  | .call func argument _ =>
    match argument with
    | some a => func.render ++ "(" ++ a.render ++ ")"
    | none => func.render ++ "()"
  | .lam parameterName _ result _ =>
    "(" ++ parameterName ++ " -> " ++ result.render ++ ")"
  | .block localSymbols result _ =>
    "(let " ++ renderLocals localSymbols ++ " in " ++ result.render ++ ")"
  | .intrinsic uri _ => uri
  | .data uri _ => uri
  | .compiled _ name _ => "comp(" ++ name ++ ")"

/-- The comma-separated element list of the tuple container's canonical
string form. -/
def renderElements : List (Option String × Node) → String
  | [] => ""
  | [e] => renderElement e
  | e :: rest => renderElement e ++ ", " ++ renderElements rest

/-- One element of the tuple container's canonical string form: `name=value`
when the name is truthy, the bare value otherwise. -/
def renderElement : Option String × Node → String
  | (some n, v) => if n = "" then v.render else n ++ "=" ++ v.render
  | (none, v) => v.render

/-- The `','.join` of `name=value` entries in `Block.__str__`. -/
def renderLocals : List (String × Node) → String
  | [] => ""
  | [(n, v)] => n ++ "=" ++ v.render
  | (n, v) :: rest => n ++ "=" ++ v.render ++ "," ++ renderLocals rest

end

/-- The `Selection.name` read-only property (null on other variants). -/
def Node.selName : Node → Option String
  | .sel _ n _ _ => n
  | _ => none

/-- The `Selection.index` read-only property (null on other variants). -/
def Node.selIndex : Node → Option Int
  | .sel _ _ i _ => i
  | _ => none

/-- A sample function-typed leaf whose type has a non-null parameter type,
for witnesses. -/
def sampleFn : Node := .intrinsic "f" (.function (some (.abstract "P")) (.abstract "R"))

/-- A sample function-typed leaf whose type has a null parameter type. -/
def sampleThunk : Node := .intrinsic "g" (.function none (.abstract "R"))

/-- A sample argument leaf of the opaque type `P`. -/
def sampleArg : Node := .data "d" (.abstract "P")

/-- A sample leaf of an opaque non-tuple, non-function type. -/
def sampleLeaf : Node := .ref "x" (.abstract "int32") none

/-- A sample leaf of a two-element named-tuple type (one named field, one
unnamed). -/
def sampleRecord : Node :=
  .ref "r" (.namedTuple [(some "x", .abstract "int32"), (none, .abstract "bool")]) none

/-- C1: for a Call on a function node of type `(P -> R)`: with `P` non-null,
an argument of assignable type yields a Call of type `R`; a non-assignable
argument fails with `IncompatibleTypeKind`; with `P` null, a supplied
argument fails with `InvalidArgumentKind`, and no argument yields a Call of
type `R`. -/
theorem call_typing_rules (assignable : TffType → TffType → Bool) (func : Node)
    (P : Option TffType) (R : TffType)
    (hf : func.type_signature = .function P R) :
    (∀ p a, P = some p → assignable p a.type_signature = true →
      Call.construct assignable func (some a) = .ok (.call func (some a) R)) ∧
    (∀ p a, P = some p → assignable p a.type_signature = false →
      Call.construct assignable func (some a) = .error .callArgumentNotAssignable ∧
        TffError.kind .callArgumentNotAssignable = .incompatibleType) ∧
    (∀ a, P = none →
      Call.construct assignable func (some a) = .error .callUnexpectedArgument ∧
        TffError.kind .callUnexpectedArgument = .invalidArgument) ∧
    (P = none → Call.construct assignable func none = .ok (.call func none R)) := by
  refine ⟨?_, ?_, ?_, ?_⟩
  · rintro p a rfl hpa
    simp [Call.construct, hf, hpa]
  · rintro p a rfl hpa
    simp [Call.construct, hf, hpa, TffError.kind]
  · rintro a rfl
    simp [Call.construct, hf, TffError.kind]
  · rintro rfl
    simp [Call.construct, hf]

/-- Witness for C1 at concrete inputs: an always-true and an always-false
assignability capability exercise all four branches. -/
theorem call_typing_rules_witness :
    Call.construct (fun _ _ => true) sampleFn (some sampleArg) =
      .ok (.call sampleFn (some sampleArg) (.abstract "R")) ∧
    Call.construct (fun _ _ => false) sampleFn (some sampleArg) =
      .error .callArgumentNotAssignable ∧
    Call.construct (fun _ _ => true) sampleThunk (some sampleArg) =
      .error .callUnexpectedArgument ∧
    Call.construct (fun _ _ => true) sampleThunk none =
      .ok (.call sampleThunk none (.abstract "R")) :=
  ⟨(call_typing_rules (fun _ _ => true) sampleFn (some (.abstract "P"))
      (.abstract "R") rfl).1 (.abstract "P") sampleArg rfl rfl,
   ((call_typing_rules (fun _ _ => false) sampleFn (some (.abstract "P"))
      (.abstract "R") rfl).2.1 (.abstract "P") sampleArg rfl rfl).1,
   ((call_typing_rules (fun _ _ => true) sampleThunk none
      (.abstract "R") rfl).2.2.1 sampleArg rfl).1,
   (call_typing_rules (fun _ _ => true) sampleThunk none
      (.abstract "R") rfl).2.2.2 rfl⟩

/-- C5: `Lambda(name, T, result)` has type `(T -> result.type_signature)`
for every non-null `T`, and a null parameter type fails with
`InvalidArgumentKind`. -/
theorem lambda_type_rule (parameterName : String) (result : Node) :
    (∀ t : TffType, Lambda.construct parameterName (some t) result =
      .ok (.lam parameterName t result (.function (some t) result.type_signature))) ∧
    (Lambda.construct parameterName none result = .error .lambdaNullParameterType ∧
      TffError.kind .lambdaNullParameterType = .invalidArgument) :=
  ⟨fun _ => rfl, rfl, rfl⟩

/-- Witness for C5 at concrete inputs. -/
theorem lambda_type_rule_witness :
    Lambda.construct "x" (some (.abstract "int32")) sampleLeaf =
      .ok (.lam "x" (.abstract "int32") sampleLeaf
        (.function (some (.abstract "int32")) (.abstract "int32"))) ∧
    Lambda.construct "x" none sampleLeaf = .error .lambdaNullParameterType :=
  ⟨(lambda_type_rule "x" sampleLeaf).1 (.abstract "int32"),
   (lambda_type_rule "x" sampleLeaf).2.1⟩

/-- C6: `Block(locals, result)` always succeeds on well-formed locals and its
type equals `result.type_signature`, whatever the locals are. -/
theorem block_type_is_result_type (localSymbols : List (String × Node))
    (result : Node) :
    Block.construct localSymbols result =
      .ok (.block localSymbols result result.type_signature) ∧
    (Node.block localSymbols result result.type_signature).type_signature =
      result.type_signature :=
  ⟨rfl, rfl⟩

/-- Witness for C6 at concrete inputs. -/
theorem block_type_is_result_type_witness :
    Block.construct [("y", sampleArg)] sampleLeaf =
      .ok (.block [("y", sampleArg)] sampleLeaf (.abstract "int32")) :=
  (block_type_is_result_type [("y", sampleArg)] sampleLeaf).1

/-- C8: the human-readable string of a Call is the function child's rendered
form followed by the parenthesized argument's rendered form, or `()` when no
argument is present. -/
theorem call_render_compositional (func arg : Node) (t1 t2 : TffType) :
    Node.render (.call func (some arg) t1) =
      func.render ++ "(" ++ arg.render ++ ")" ∧
    Node.render (.call func none t2) = func.render ++ "()" := by
  constructor <;> simp [Node.render]

/-- Witness for C8 at concrete inputs. -/
theorem call_render_compositional_witness :
    Node.render (.call sampleFn (some sampleArg) (.abstract "R")) =
      sampleFn.render ++ "(" ++ sampleArg.render ++ ")" ∧
    Node.render (.call sampleThunk none (.abstract "R")) =
      sampleThunk.render ++ "()" :=
  ⟨(call_render_compositional sampleFn sampleArg (.abstract "R")
      (.abstract "R")).1,
   (call_render_compositional sampleThunk sampleArg (.abstract "R")
      (.abstract "R")).2⟩

/-- C9: a Selection with neither or both of name/index fails with
`InvalidValueKind`; a successful Selection stores the given name and index
verbatim, exactly one of them non-null. -/
theorem selection_name_xor_index (source : Node) :
    (Selection.construct source none none =
        .error .selectionNeitherNameNorIndex ∧
      TffError.kind .selectionNeitherNameNorIndex = .invalidValue) ∧
    (∀ n i, Selection.construct source (some n) (some i) =
        .error .selectionBothNameAndIndex ∧
      TffError.kind .selectionBothNameAndIndex = .invalidValue) ∧
    (∀ name index node, Selection.construct source name index = .ok node →
      node.selName = name ∧ node.selIndex = index ∧
        node.selName.isSome = !node.selIndex.isSome) := by
  refine ⟨⟨rfl, rfl⟩, fun n i => ⟨rfl, rfl⟩, ?_⟩
  intro name index node h
  rcases name with _ | n <;> rcases index with _ | i
  · simp [Selection.construct] at h
  · simp only [Selection.construct] at h
    split at h
    · rename_i elements hle
      split at h
      · obtain rfl :
            Node.sel source none (some i)
              (elements.getD i.toNat (none, .abstract "")).2 = node := by
          simpa using h
        simp [Node.selName, Node.selIndex]
      · exact absurd h (by simp)
    · exact absurd h (by simp)
  · simp only [Selection.construct] at h
    split at h
    · split at h
      · exact absurd h (by simp)
      · split at h
        · rename_i t heq
          obtain rfl : Node.sel source (some n) none t = node := by
            simpa using h
          simp [Node.selName, Node.selIndex]
        · exact absurd h (by simp)
    · exact absurd h (by simp)
  · simp [Selection.construct] at h

/-- Witness for C9 at concrete inputs. -/
theorem selection_name_xor_index_witness :
    (Selection.construct sampleLeaf none none =
      .error .selectionNeitherNameNorIndex) ∧
    (Selection.construct sampleLeaf (some "x") (some 0) =
      .error .selectionBothNameAndIndex) ∧
    ((Node.sel sampleRecord (some "x") none (.abstract "int32")).selName = some "x" ∧
      (Node.sel sampleRecord (some "x") none (.abstract "int32")).selIndex = none ∧
      (Node.sel sampleRecord (some "x") none
          (.abstract "int32")).selName.isSome =
        !(Node.sel sampleRecord (some "x") none
          (.abstract "int32")).selIndex.isSome) :=
  ⟨(selection_name_xor_index sampleLeaf).1.1,
   ((selection_name_xor_index sampleLeaf).2.1 "x" 0).1,
   (selection_name_xor_index sampleRecord).2.2 (some "x") none
     (.sel sampleRecord (some "x") none (.abstract "int32")) rfl⟩

/-- C2 counterexample: an empty string can be a field name of a named-tuple
type (the lookup finds it), yet `Selection.__init__` rejects an empty name
with a `ValueError` before the lookup — so selecting by a name that is a
field of the source's type does not always yield a node. -/
theorem selection_empty_name_field_cex :
    getNamedTupleElementType [(some "", .abstract "int32")] "" =
      .ok (.abstract "int32") ∧
    Selection.construct
        (.ref "r" (.namedTuple [(some "", .abstract "int32")]) none)
        (some "") none =
      .error .selectionEmptyName :=
  ⟨rfl, rfl⟩

/-- C2 (amended): on a source of named-tuple type, selecting by a non-empty
name that resolves to a field yields a node of that field's declared type;
selecting by an index in `[0, n)` yields a node of the element type at that
position; an index outside `[0, n)` fails with `InvalidValueKind`. -/
theorem selection_typing_rules (source : Node)
    (elements : List (Option String × TffType))
    (hs : source.type_signature = .namedTuple elements) :
    (∀ name t, name ≠ "" → getNamedTupleElementType elements name = .ok t →
      Selection.construct source (some name) none =
        .ok (.sel source (some name) none t)) ∧
    (∀ i : Int, 0 ≤ i → i < (elements.length : Int) →
      Selection.construct source none (some i) =
        .ok (.sel source none (some i)
          (elements.getD i.toNat (none, .abstract "")).2)) ∧
    (∀ i : Int, ¬(0 ≤ i ∧ i < (elements.length : Int)) →
      Selection.construct source none (some i) =
        .error .selectionIndexOutOfRange ∧
      TffError.kind .selectionIndexOutOfRange = .invalidValue) := by
  refine ⟨?_, ?_, ?_⟩
  · intro name t hne hlook
    simp [Selection.construct, hs, hne, hlook]
  · intro i h0 hlen
    have hc : 0 ≤ i ∧ i < (elements.length : Int) := ⟨h0, hlen⟩
    simp [Selection.construct, hs, hc]
  · intro i hout
    simp [Selection.construct, hs, hout, TffError.kind]

/-- Witness for C2 (amended) at concrete inputs: the named field, an
in-range index and an out-of-range index on a two-element record. -/
theorem selection_typing_rules_witness :
    Selection.construct sampleRecord (some "x") none =
      .ok (.sel sampleRecord (some "x") none (.abstract "int32")) ∧
    Selection.construct sampleRecord none (some 1) =
      .ok (.sel sampleRecord none (some 1) (.abstract "bool")) ∧
    Selection.construct sampleRecord none (some 2) =
      .error .selectionIndexOutOfRange :=
  ⟨(selection_typing_rules sampleRecord _ rfl).1 "x" (.abstract "int32")
      (by decide) rfl,
   (selection_typing_rules sampleRecord _ rfl).2.1 1 (by decide) (by decide),
   ((selection_typing_rules sampleRecord _ rfl).2.2 2 (by decide)).1⟩

/-- If normalization yields a non-null name, the input was that name. -/
theorem normalizeTupleName_eq_some {x : Option String} {s : String}
    (h : normalizeTupleName x = some s) : x = some s := by
  cases x with
  | none => simp [normalizeTupleName] at h
  | some t =>
    by_cases ht : t = ""
    · simp [normalizeTupleName, ht] at h
    · simpa [normalizeTupleName, ht] using h

/-- Name normalization cannot introduce a duplicate non-null name. -/
theorem hasDuplicateName_map_normalize (l : List (Option String))
    (h : hasDuplicateName l = false) :
    hasDuplicateName (l.map normalizeTupleName) = false := by
  induction l with
  | nil => rfl
  | cons x rest ih =>
    cases x with
    | none =>
      simp only [List.map_cons, normalizeTupleName, hasDuplicateName] at h ⊢
      exact ih h
    | some s =>
      simp only [hasDuplicateName, Bool.or_eq_false_iff] at h
      obtain ⟨h1, h2⟩ := h
      by_cases hs : s = ""
      · subst hs
        simp only [List.map_cons, normalizeTupleName, if_pos rfl,
          hasDuplicateName]
        exact ih h2
      · simp only [List.map_cons, normalizeTupleName, if_neg hs,
          hasDuplicateName, Bool.or_eq_false_iff]
        refine ⟨?_, ih h2⟩
        cases hc : (rest.map normalizeTupleName).contains (some s) with
        | false => rfl
        | true =>
          exfalso
          have hmem : some s ∈ rest.map normalizeTupleName :=
            List.elem_iff.mp hc
          obtain ⟨x, hx, hnx⟩ := List.mem_map.mp hmem
          obtain rfl : x = some s := normalizeTupleName_eq_some hnx
          have hc2 : rest.contains (some s) = true := List.elem_iff.mpr hx
          rw [hc2] at h1
          exact Bool.noConfusion h1

/-- C3 counterexample: an element named by the empty string keeps its name in
the constructed Tuple node, but contributes an unnamed field to the derived
type (the source keeps a name in the type only when it is truthy) — so the
type's field names do not always equal the input names. -/
theorem tuple_empty_name_unnamed_field_cex :
    Tuple.construct [.pair (some "") (.ref "r" (.abstract "int32") none)] =
      .ok (.tup [(some "", .ref "r" (.abstract "int32") none)]
        (.namedTuple [(none, .abstract "int32")])) ∧
    (none : Option String) ≠ some "" :=
  ⟨rfl, by simp⟩

/-- C3 (amended): the derived type of a Tuple is a named-tuple type whose
fields mirror the input elements in order, each field's type being the child
node's type signature, and each field's name being the element's name except
that an empty-string name yields an unnamed field; construction fails when
two elements share the same non-null name. -/
theorem tuple_type_mirrors_elements (elements : List TupleElem) :
    (hasDuplicateName ((elements.map mapElement).map Prod.fst) = false →
      Tuple.construct elements = .ok (.tup (elements.map mapElement)
        (.namedTuple ((elements.map mapElement).map
          fun e => (normalizeTupleName e.1, e.2.type_signature))))) ∧
    (hasDuplicateName ((elements.map mapElement).map Prod.fst) = true →
      Tuple.construct elements = .error .tupleDuplicateName ∧
        TffError.kind .tupleDuplicateName = .invalidValue) := by
  constructor
  · intro h
    have hmapped : ((elements.map mapElement).map
        (fun e => (normalizeTupleName e.1, e.2.type_signature))).map Prod.fst =
        ((elements.map mapElement).map Prod.fst).map normalizeTupleName := by
      simp
    have h2 : hasDuplicateName (((elements.map mapElement).map
        (fun e => (normalizeTupleName e.1, e.2.type_signature))).map Prod.fst) =
        false := by
      rw [hmapped]
      exact hasDuplicateName_map_normalize _ h
    simp only [Tuple.construct]
    rw [h2, h]
    simp
  · intro h
    refine ⟨?_, rfl⟩
    simp only [Tuple.construct]
    cases hb : hasDuplicateName (((elements.map mapElement).map
        (fun e => (normalizeTupleName e.1, e.2.type_signature))).map Prod.fst) with
    | false => rw [h]; simp
    | true => simp

/-- Witness for C3 (amended) at concrete inputs: a two-element tuple with a
named and an unnamed element, and a tuple with a duplicated name. -/
theorem tuple_type_mirrors_elements_witness :
    Tuple.construct [.pair (some "a") sampleLeaf, .bare sampleArg] =
      .ok (.tup [(some "a", sampleLeaf), (none, sampleArg)]
        (.namedTuple [(some "a", .abstract "int32"), (none, .abstract "P")])) ∧
    Tuple.construct [.pair (some "a") sampleLeaf, .pair (some "a") sampleArg] =
      .error .tupleDuplicateName :=
  ⟨(tuple_type_mirrors_elements
      [.pair (some "a") sampleLeaf, .bare sampleArg]).1 (by decide),
   ((tuple_type_mirrors_elements
      [.pair (some "a") sampleLeaf, .pair (some "a") sampleArg]).2
      (by decide)).1⟩

/-- `hexChar` only ever produces one of the sixteen lowercase digit
characters. -/
theorem hexChar_mem (n : Nat) : hexChar n ∈ hexDigitChars := by
  unfold hexChar
  rcases lt_or_ge n hexDigitChars.length with h | h
  · rw [List.getD_eq_getElem _ _ h]
    exact List.getElem_mem h
  · rw [List.getD_eq_default _ _ h]
    decide

/-- Every character accumulated by `toHexLowerAux` is a lowercase
hexadecimal digit, provided the accumulator already satisfies this. -/
theorem toHexLowerAux_mem (fuel : Nat) :
    ∀ (n : Nat) (acc : List Char), (∀ c ∈ acc, c ∈ hexDigitChars) →
      ∀ c ∈ toHexLowerAux fuel n acc, c ∈ hexDigitChars := by
  induction fuel with
  | zero =>
    intro n acc hacc c hc
    simp only [toHexLowerAux] at hc
    exact hacc c hc
  | succ fuel ih =>
    intro n acc hacc c hc
    simp only [toHexLowerAux] at hc
    by_cases h : n < 16
    · rw [if_pos h] at hc
      rcases List.mem_cons.mp hc with rfl | hc2
      · exact hexChar_mem n
      · exact hacc c hc2
    · rw [if_neg h] at hc
      refine ih (n / 16) (hexChar (n % 16) :: acc) ?_ c hc
      intro d hd
      rcases List.mem_cons.mp hd with rfl | hd2
      · exact hexChar_mem (n % 16)
      · exact hacc d hd2

/-- Python's `'{:x}'` format produces only lowercase hexadecimal digits. -/
theorem isLowerHexString_toHexLower (n : Nat) :
    isLowerHexString (toHexLower n) = true := by
  unfold isLowerHexString toHexLower
  rw [List.all_eq_true]
  intro c hc
  have hmem : c ∈ hexDigitChars :=
    toHexLowerAux_mem (n + 1) n [] (by intro d hd; cases hd) c hc
  exact List.elem_iff.mpr hmem

/-- C7: when no name is supplied, the default name of a CompiledComputation
is a pure function of the payload's canonical-encoding bytes — byte-identical
payloads yield identical default names — and consists solely of lowercase
hexadecimal digits; a supplied name is stored verbatim. -/
theorem compiled_default_name_deterministic :
    (∀ p q : Proto, p.reprBytes = q.reprBytes →
      constructedCompiledName (CompiledComputation.construct p none) =
        constructedCompiledName (CompiledComputation.construct q none)) ∧
    (∀ (p : Proto) (s : String),
      constructedCompiledName (CompiledComputation.construct p none) = some s →
      isLowerHexString s = true) ∧
    (∀ (p : Proto) (s : String),
      constructedCompiledName (CompiledComputation.construct p (some s)) =
        some s) := by
  refine ⟨?_, ?_, ?_⟩
  · intro p q hpq
    simp [CompiledComputation.construct, constructedCompiledName,
      defaultCompiledName, hpq]
  · intro p s hs
    have h2 : some (defaultCompiledName p) = some s := by
      simpa [CompiledComputation.construct, constructedCompiledName] using hs
    obtain rfl : defaultCompiledName p = s := Option.some.inj h2
    exact isLowerHexString_toHexLower _
  · intro p s
    rfl

/-- Witness for C7 at concrete inputs: two payloads with identical bytes but
different embedded type descriptors, the concrete generated name, and an
explicit name. -/
theorem compiled_default_name_deterministic_witness :
    constructedCompiledName
        (CompiledComputation.construct ⟨.abstract "T", [97]⟩ none) =
      constructedCompiledName
        (CompiledComputation.construct ⟨.abstract "U", [97]⟩ none) ∧
    isLowerHexString "620062" = true ∧
    constructedCompiledName
        (CompiledComputation.construct ⟨.abstract "T", [97]⟩ (some "debug")) =
      some "debug" :=
  ⟨compiled_default_name_deterministic.1 ⟨.abstract "T", [97]⟩
      ⟨.abstract "U", [97]⟩ rfl,
   compiled_default_name_deterministic.2.1 ⟨.abstract "T", [97]⟩ "620062" rfl,
   compiled_default_name_deterministic.2.2 ⟨.abstract "T", [97]⟩ "debug"⟩

/-- C4: every successful construction, for each of the nine variants, yields
a node whose (always-present) type signature agrees with the variant's
derivation rule over its children; nodes expose only read-only accessors and
no operation of the module mutates a node, so the signature is fixed for the
node's lifetime. -/
theorem constructed_type_signature_consistent :
    (∀ name ts context node, Reference.construct name ts context = .ok node →
      ∃ t, ts = some t ∧ node.type_signature = t) ∧
    (∀ source name index node,
      Selection.construct source name index = .ok node →
      ∃ elements, source.type_signature = .namedTuple elements ∧
        ((∃ n, name = some n ∧
            getNamedTupleElementType elements n = .ok node.type_signature) ∨
         (∃ i : Int, index = some i ∧ 0 ≤ i ∧ i < (elements.length : Int) ∧
            node.type_signature =
              (elements.getD i.toNat (none, .abstract "")).2))) ∧
    (∀ elements node, Tuple.construct elements = .ok node →
      node.type_signature = .namedTuple ((elements.map mapElement).map
        fun e => (normalizeTupleName e.1, e.2.type_signature))) ∧
    (∀ assignable func arg node,
      Call.construct assignable func arg = .ok node →
      ∃ P R, func.type_signature = .function P R ∧ node.type_signature = R) ∧
    (∀ parameterName parameterType result node,
      Lambda.construct parameterName parameterType result = .ok node →
      ∃ t, parameterType = some t ∧
        node.type_signature = .function (some t) result.type_signature) ∧
    (∀ localSymbols result node,
      Block.construct localSymbols result = .ok node →
      node.type_signature = result.type_signature) ∧
    (∀ uri ts node, Intrinsic.construct uri ts = .ok node →
      ∃ t, ts = some t ∧ node.type_signature = t) ∧
    (∀ uri ts node, Data.construct uri ts = .ok node →
      ∃ t, ts = some t ∧ node.type_signature = t) ∧
    (∀ proto name node, CompiledComputation.construct proto name = .ok node →
      node.type_signature = deserializeType proto) := by
  refine ⟨?_, ?_, ?_, ?_, ?_, ?_, ?_, ?_, ?_⟩
  · intro name ts context node h
    cases ts with
    | none => simp [Reference.construct, toType] at h
    | some t =>
      obtain rfl : Node.ref name t context = node := by
        simpa [Reference.construct, toType] using h
      exact ⟨t, rfl, rfl⟩
  · intro source name index node h
    rcases name with _ | n <;> rcases index with _ | i
    · simp [Selection.construct] at h
    · simp only [Selection.construct] at h
      split at h
      · rename_i elements hst
        split at h
        · rename_i hcond
          obtain rfl :
              Node.sel source none (some i)
                (elements.getD i.toNat (none, .abstract "")).2 = node := by
            simpa using h
          exact ⟨elements, hst, .inr ⟨i, rfl, hcond.1, hcond.2, rfl⟩⟩
        · exact absurd h (by simp)
      · exact absurd h (by simp)
    · simp only [Selection.construct] at h
      split at h
      · rename_i elements hst
        split at h
        · exact absurd h (by simp)
        · split at h
          · rename_i t hlook
            obtain rfl : Node.sel source (some n) none t = node := by
              simpa using h
            exact ⟨elements, hst, .inl ⟨n, rfl, hlook⟩⟩
          · exact absurd h (by simp)
      · exact absurd h (by simp)
    · simp [Selection.construct] at h
  · intro elements node h
    simp only [Tuple.construct] at h
    split_ifs at h with h1 h2
    obtain rfl := Except.ok.inj h
    rfl
  · intro assignable func arg node h
    simp only [Call.construct] at h
    split at h
    · rename_i parameter result hft
      split at h
      · rename_i p
        split at h
        · exact absurd h (by simp)
        · rename_i a
          split at h
          · obtain rfl : Node.call func (some a) result = node := by
              simpa using h
            exact ⟨some p, result, hft, rfl⟩
          · exact absurd h (by simp)
      · split at h
        · exact absurd h (by simp)
        · obtain rfl : Node.call func none result = node := by
            simpa using h
          exact ⟨none, result, hft, rfl⟩
    · exact absurd h (by simp)
  · intro parameterName parameterType result node h
    cases parameterType with
    | none => simp [Lambda.construct] at h
    | some t =>
      obtain rfl :
          Node.lam parameterName t result
            (.function (some t) result.type_signature) = node := by
        simpa [Lambda.construct, toType] using h
      exact ⟨t, rfl, rfl⟩
  · intro localSymbols result node h
    obtain rfl : Node.block localSymbols result result.type_signature = node := by
      simpa [Block.construct] using h
    rfl
  · intro uri ts node h
    cases ts with
    | none => simp [Intrinsic.construct] at h
    | some t =>
      obtain rfl : Node.intrinsic uri t = node := by
        simpa [Intrinsic.construct, toType] using h
      exact ⟨t, rfl, rfl⟩
  · intro uri ts node h
    cases ts with
    | none => simp [Data.construct] at h
    | some t =>
      obtain rfl : Node.data uri t = node := by
        simpa [Data.construct, toType] using h
      exact ⟨t, rfl, rfl⟩
  · intro proto name node h
    cases name with
    | some s =>
      obtain rfl : Node.compiled proto s (deserializeType proto) = node :=
        Except.ok.inj h
      rfl
    | none =>
      obtain rfl :
          Node.compiled proto (defaultCompiledName proto)
            (deserializeType proto) = node := Except.ok.inj h
      rfl

/-- Witness for C4 at concrete inputs, through the Block and
CompiledComputation parts. -/
theorem constructed_type_signature_consistent_witness :
    (Node.block [] sampleLeaf (.abstract "int32")).type_signature =
      sampleLeaf.type_signature ∧
    (Node.compiled ⟨.abstract "T", [97]⟩ "d" (.abstract "T")).type_signature =
      deserializeType ⟨.abstract "T", [97]⟩ :=
  ⟨constructed_type_signature_consistent.2.2.2.2.2.1 [] sampleLeaf
      (.block [] sampleLeaf (.abstract "int32")) rfl,
   constructed_type_signature_consistent.2.2.2.2.2.2.2.2 ⟨.abstract "T", [97]⟩
      (some "d") (.compiled ⟨.abstract "T", [97]⟩ "d" (.abstract "T")) rfl⟩

/-- C10 counterexample: the claim says a Reference with an empty name cannot
be constructed, but `Reference.__init__` only checks that the name is text —
construction from the empty name succeeds. -/
theorem reference_empty_name_accepted_cex :
    Reference.construct "" (some (.abstract "int32")) none =
      .ok (.ref "" (.abstract "int32") none) := rfl

/-- C10 (amended): every successfully constructed Reference stores the given
text name verbatim; the constructor does not reject an empty name (only
non-text names fail, which is a typing fact here). -/
theorem reference_stores_any_text_name (name : String) (t : TffType)
    (context : Option String) :
    Reference.construct name (some t) context = .ok (.ref name t context) := rfl

/-- Witness for C10 (amended) at concrete inputs. -/
theorem reference_stores_any_text_name_witness :
    Reference.construct "v" (some (.abstract "int32")) (some "ctx") =
      .ok (.ref "v" (.abstract "int32") (some "ctx")) :=
  reference_stores_any_text_name "v" (.abstract "int32") (some "ctx")

end CompBB
